import Mathlib

/-! Verification development for the STR PDF extraction core (vel-pdf-api).

Shallow embedding of the decision logic of:
  app/str_extractor.py      (STRExtractor: section offsets, box extraction,
                             child table, two-stage template selection,
                             field cleaners, structure_data)
  app/pdf_cropper.py        (detect_border decision core)
  app/utils/text_cleaners.py (is_state_in_address and the shared cleaners)
  app/config/constants.py   (STATE_VARIATIONS, V2 offsets)

Text is modelled as List Char; pdfplumber coordinates (Python floats that are
compared and added exactly in the relevant ranges) are modelled as rationals;
Python int() truncation toward zero is modelled by truncInt. -/

set_option maxRecDepth 1000000

namespace Vel

/-- Text type used throughout: a list of characters. -/
abbrev Str := List Char

/-- Python whitespace: the characters split on by str.split() and matched by
the regex class for whitespace. -/
def pySpace (c : Char) : Bool :=
  c == ' ' || c == '\t' || c == '\n' || c == '\r' || c == '\x0b' || c == '\x0c'

/-- ASCII digit, the regex digit class for the ASCII inputs at hand. -/
def isDigitChar (c : Char) : Bool := decide ('0' ≤ c) && decide (c ≤ '9')

/-- ASCII letter, the regex class a-zA-Z. -/
def isAlphaChar (c : Char) : Bool :=
  (decide ('a' ≤ c) && decide (c ≤ 'z')) || (decide ('A' ≤ c) && decide (c ≤ 'Z'))

/-- Python str.upper for the ASCII inputs at hand. -/
def upper (t : Str) : Str := t.map Char.toUpper

/-- Python str.lower for the ASCII inputs at hand. -/
def lower (t : Str) : Str := t.map Char.toLower

/-- Worker for pySplit: accumulates the current token in reverse. -/
def pySplitGo : Str → Str → List Str
  | [], acc => if acc.isEmpty then [] else [acc.reverse]
  | c :: rest, acc =>
    if pySpace c then
      if acc.isEmpty then pySplitGo rest [] else acc.reverse :: pySplitGo rest []
    else pySplitGo rest (c :: acc)

/-- Python str.split() with no argument: split on whitespace runs, no empty
tokens. -/
def pySplit (t : Str) : List Str := pySplitGo t []

/-- The first maximal run of non-whitespace characters (empty when the text is
all whitespace). Used to state the spec reading of the MyKad cleaner. -/
def firstToken (t : Str) : Str :=
  (t.dropWhile pySpace).takeWhile (fun c => !pySpace c)

/-- Python str.lstrip(). -/
def lstripWs (t : Str) : Str := t.dropWhile pySpace

/-- Python str.rstrip(). -/
def rstripWs (t : Str) : Str := (t.reverse.dropWhile pySpace).reverse

/-- Python str.strip(). -/
def stripWs (t : Str) : Str := rstripWs (lstripWs t)

/-- Python str.rstrip(cs): remove trailing characters drawn from cs. -/
def rstripChars (cs : Str) (t : Str) : Str :=
  (t.reverse.dropWhile (fun c => cs.contains c)).reverse

/-- Boolean list-prefix test. -/
def isPrefixB : Str → Str → Bool
  | [], _ => true
  | _ :: _, [] => false
  | p :: ps, c :: cs => p == c && isPrefixB ps cs

/-- Python substring containment: containsSub pat hay is the test pat in hay. -/
def containsSub (pat : Str) : Str → Bool
  | [] => isPrefixB pat []
  | c :: rest => isPrefixB pat (c :: rest) || containsSub pat rest

/-- Python str.endswith. -/
def endsWithB (pat t : Str) : Bool := isPrefixB pat.reverse t.reverse

/-- Fueled worker for replaceStr (fuel bounds the scan; length of the text
suffices since every step consumes at least one character). -/
def replaceStrFuel (pat rep : Str) : Nat → Str → Str
  | 0, t => t
  | _ + 1, [] => []
  | fuel + 1, c :: rest =>
    if !pat.isEmpty && isPrefixB pat (c :: rest) then
      rep ++ replaceStrFuel pat rep fuel (List.drop pat.length (c :: rest))
    else c :: replaceStrFuel pat rep fuel rest

/-- Python str.replace for a non-empty pattern: replace every non-overlapping
leftmost occurrence. -/
def replaceStr (pat rep t : Str) : Str := replaceStrFuel pat rep t.length t

/-- Python int() applied to an exact rational difference: truncation toward
zero (Int.tdiv rounds toward zero; the denominator is positive). -/
def truncInt (q : ℚ) : ℤ := Int.tdiv q.num (q.den : ℤ)

/-! Field cleaners, from app/utils/text_cleaners.py and the identical methods
of STRExtractor in app/str_extractor.py. -/

/-- Match attempt at a fixed position for the age regex: one or more digits,
then optional whitespace, then the literal TAHUN. Maximal-munch is exact for
this pattern (after the digit run the next character cannot restart it). -/
def ageAt (t : Str) : Option Str :=
  let ds := t.takeWhile isDigitChar
  if ds.isEmpty then none
  else
    let r1 := t.dropWhile isDigitChar
    let ws := r1.takeWhile pySpace
    let r2 := r1.dropWhile pySpace
    if isPrefixB ("TAHUN").data r2 then some (ds ++ ws ++ ("TAHUN").data) else none

/-- Leftmost search for the age pattern. -/
def searchAge : Str → Option Str
  | [] => none
  | c :: rest =>
    match ageAt (c :: rest) with
    | some g => some g
    | none => searchAge rest

/-- clean_age_field: keep the first digits-TAHUN group of the uppercased text,
or the text unchanged when there is no match. -/
def cleanAgeField (t : Str) : Str :=
  if t.isEmpty then []
  else
    match searchAge (upper t) with
    | some g => g
    | none => t

/-- First index at which the (uppercase) label occurs in the text,
case-insensitively. -/
def findLabelIdx (lab : Str) : Str → Option Nat
  | [] => if isPrefixB lab [] then some 0 else none
  | c :: rest =>
    if isPrefixB lab (upper (c :: rest)) then some 0
    else (findLabelIdx lab rest).map (· + 1)

/-- One label-removal pass of clean_remove_section_labels: the regex removes
from the whitespace run preceding the first case-insensitive occurrence of the
label to the end of the (single-line) text. -/
def truncAtLabel (lab : Str) (t : Str) : Str :=
  match findLabelIdx lab t with
  | none => t
  | some k => rstripWs (t.take k)

/-- clean_remove_section_labels: truncate at Pemohon, then Pasangan, Waris and
Anak, then strip, remove a trailing comma and strip again. -/
def cleanRemoveSectionLabels (t : Str) : Str :=
  if t.isEmpty then []
  else
    let c1 := truncAtLabel ("PEMOHON").data t
    let c2 := truncAtLabel ("PASANGAN").data c1
    let c3 := truncAtLabel ("WARIS").data c2
    let c4 := truncAtLabel ("ANAK").data c3
    stripWs (rstripChars (",").data (stripWs c4))

/-- clean_postal_code: digits only. -/
def cleanPostalCode (t : Str) : Str :=
  if t.isEmpty then [] else t.filter isDigitChar

/-- clean_numbers_only: digits only. -/
def cleanNumbersOnly (t : Str) : Str :=
  if t.isEmpty then [] else t.filter isDigitChar

/-- clean_remove_numbers: drop digits, collapse whitespace. -/
def cleanRemoveNumbers (t : Str) : Str :=
  if t.isEmpty then []
  else stripWs (List.intercalate (" ").data (pySplit (t.filter (fun c => !isDigitChar c))))

/-- clean_remove_whitespace: drop every whitespace character. -/
def cleanRemoveWhitespace (t : Str) : Str :=
  if t.isEmpty then [] else t.filter (fun c => !pySpace c)

/-- clean_remove_trailing_rm: remove one trailing RM token (the regex match is
the whitespace run before the final RM, the RM, and the trailing whitespace),
then strip. -/
def cleanRemoveTrailingRm (t : Str) : Str :=
  if t.isEmpty then []
  else
    let r := rstripWs t
    if endsWithB ("RM").data (upper r) then stripWs (r.take (r.length - 2))
    else stripWs t

/-- clean_jantina_field: PEREMPUAN before LELAKI, else letters and collapsed
spaces only. -/
def cleanJantinaField (t : Str) : Str :=
  if t.isEmpty then []
  else
    let u := upper t
    if containsSub ("PEREMPUAN").data u then ("PEREMPUAN").data
    else if containsSub ("LELAKI").data u then ("LELAKI").data
    else stripWs (List.intercalate (" ").data (pySplit (t.filter (fun c => isAlphaChar c || pySpace c))))

/-- clean_alphabets_only: letters and collapsed spaces only. -/
def cleanAlphabetsOnly (t : Str) : Str :=
  if t.isEmpty then []
  else stripWs (List.intercalate (" ").data (pySplit (t.filter (fun c => isAlphaChar c || pySpace c))))

/-- clean_mykad_number: token before the first whitespace, digits only,
truncated to 12 digits when at least 12 remain. -/
def cleanMykadNumber (t : Str) : Str :=
  if t.isEmpty then []
  else
    let tok := match pySplit t with
      | [] => t
      | x :: _ => x
    let digits := tok.filter isDigitChar
    if 12 ≤ digits.length then digits.take 12 else digits

/-- STATE_VARIATIONS from app/config/constants.py. -/
def STATE_VARIATIONS : List (Str × List Str) :=
  [(("W.P.").data, [("WILAYAH PERSEKUTUAN").data, ("WP").data, ("W.P.").data, ("W.P").data]),
   (("WILAYAH PERSEKUTUAN").data, [("W.P.").data, ("WP").data, ("WILAYAH PERSEKUTUAN").data]),
   (("KUALA LUMPUR").data, [("KL").data, ("K.L.").data, ("KUALA LUMPUR").data]),
   (("SELANGOR").data, [("SELANGOR").data, ("SEL").data]),
   (("PULAU PINANG").data, [("PULAU PINANG").data, ("PENANG").data, ("P.PINANG").data]),
   (("JOHOR").data, [("JOHOR").data, ("JHR").data]),
   (("MELAKA").data, [("MELAKA").data, ("MALACCA").data, ("MLK").data])]

/-- is_state_in_address from app/utils/text_cleaners.py: direct containment,
then the synonym table, then at least 50 percent word overlap. -/
def isStateInAddress (state addr : Str) : Bool :=
  if state.isEmpty || addr.isEmpty then false
  else
    let sn := List.intercalate (" ").data (pySplit (upper state))
    let au := List.intercalate (" ").data (pySplit (upper addr))
    if containsSub sn au then true
    else if STATE_VARIATIONS.any (fun p =>
        containsSub p.1 sn && p.2.any (fun v => containsSub v au)) then true
    else
      let sw := (pySplit sn).toFinset
      let aw := (pySplit au).toFinset
      decide (sw.card ≤ 2 * (sw ∩ aw).card)

/-! Geometry: positioned words, field boxes, pages. -/

/-- One positioned word of pdfplumber extract_words. -/
structure Word where
  text : Str
  x0 : ℚ
  x1 : ℚ
  top : ℚ
  bottom : ℚ
deriving DecidableEq

/-- One template field box. -/
structure Box where
  x : ℚ
  y : ℚ
  width : ℚ
  height : ℚ
deriving DecidableEq

/-- One page: its positioned words and its detected tables (table cells may be
missing, as in pdfplumber). -/
structure Page where
  words : List Word
  tables : List (List (List (Option Str)))
deriving DecidableEq

/-- Strict lexicographic order on the sort key (top, x0) used by
extract_text_from_box. -/
def keyLt (a b : Word) : Bool :=
  decide (a.top < b.top) || (decide (a.top = b.top) && decide (a.x0 < b.x0))

/-- Stable insertion into a key-sorted list: the new element goes before the
first element whose key is not smaller. -/
def insertKey (a : Word) : List Word → List Word
  | [] => [a]
  | b :: t => if keyLt b a then b :: insertKey a t else a :: b :: t

/-- Stable sort by (top, x0), matching the stable Python list.sort. -/
def sortWords : List Word → List Word
  | [] => []
  | a :: t => insertKey a (sortWords t)

/-- extract_text_from_box: words whose horizontal start lies in the box and
whose top lies in the offset-adjusted, tolerance-widened vertical band, sorted
in reading order, joined, whitespace-collapsed and with trailing punctuation
stripped. -/
def extractTextFromBox (page : Page) (box : Box) (yOffset : ℚ := 0) (tol : ℚ := 5) : Str :=
  let yAdj := box.y + yOffset
  let fieldWords := page.words.filter (fun wd =>
    decide (box.x ≤ wd.x0) && decide (wd.x0 ≤ box.x + box.width) &&
    decide (yAdj - tol ≤ wd.top) && decide (wd.top ≤ yAdj + box.height + tol))
  if fieldWords.isEmpty then []
  else
    let text := List.intercalate (" ").data ((sortWords fieldWords).map Word.text)
    rstripChars (":;,.").data (List.intercalate (" ").data (pySplit (stripWs text)))

/-! Template fields and section-offset detection. -/

/-- The template field mapping: an ordered association list, as the JSON dict. -/
abbrev Fields := List (Str × Box)

/-- Dict lookup on the field mapping. -/
def lookupField (fields : Fields) (name : Str) : Option Box :=
  (fields.find? (fun p => p.1 == name)).map Prod.snd

/-- Section header keyword sets from detect_section_offset (and
SECTION_HEADERS in constants.py), with the default MAKLUMAT. -/
def headerKeywords (name : Str) : List Str :=
  if name = ("maklumat_pemohon_header").data then [("MAKLUMAT").data, ("PEMOHON").data]
  else if name = ("maklumat_pasangan_header").data then [("MAKLUMAT").data, ("PASANGAN").data]
  else if name = ("maklumat_anak_header").data then [("MAKLUMAT").data, ("ANAK").data]
  else if name = ("maklumat_waris_header").data then [("MAKLUMAT").data, ("WARIS").data]
  else [("MAKLUMAT").data]

/-- Horizontal acceptance band for a header candidate: the template x-range
widened by 20 units on each side. -/
def inHeaderXRange (tx tw : ℚ) (wd : Word) : Bool :=
  decide (tx - 20 ≤ wd.x0) && decide (wd.x0 ≤ tx + tw + 20)

/-- Vertical acceptance for the waris header search: no constraint on
multi-page documents, otherwise within the 200-unit search range. -/
def warisYOk (ty : ℚ) (pageCount : Nat) (wd : Word) : Bool :=
  decide (1 < pageCount) || decide (|wd.top - ty| ≤ 200)

/-- Candidate words for an ordinary section header: keyword substring match,
horizontal band, and vertical distance within the search range. -/
def ordinaryCandidates (kws : List Str) (tx tw ty range : ℚ) (page : Page) : List Word :=
  page.words.filter (fun wd =>
    (kws.any (fun kw => containsSub kw (upper wd.text))) &&
    inHeaderXRange tx tw wd && decide (|wd.top - ty| ≤ range))

/-- MAKLUMAT words collected by the waris branch of detect_section_offset. -/
def warisMakWords (tx tw ty : ℚ) (pageCount : Nat) (page : Page) : List Word :=
  page.words.filter (fun wd =>
    inHeaderXRange tx tw wd && warisYOk ty pageCount wd &&
    containsSub ("MAKLUMAT").data (upper wd.text))

/-- WARIS words (not containing MAKLUMAT, per the elif) collected by the waris
branch of detect_section_offset. -/
def warisWarWords (tx tw ty : ℚ) (pageCount : Nat) (page : Page) : List Word :=
  page.words.filter (fun wd =>
    inHeaderXRange tx tw wd && warisYOk ty pageCount wd &&
    !containsSub ("MAKLUMAT").data (upper wd.text) &&
    containsSub ("WARIS").data (upper wd.text))

/-- detect_section_offset: 0 when the header field is absent from the
template; for the waris header, the first MAKLUMAT word that has a WARIS word
on the same visual line (within 5 units), or the none sentinel; for other
headers the first keyword candidate, or 0. -/
def detectSectionOffset (fields : Fields) (page : Page) (name : Str) (pageCount : Nat) : Option ℤ :=
  match lookupField fields name with
  | none => some 0
  | some tb =>
    if name = ("maklumat_waris_header").data then
      let mak := warisMakWords tb.x tb.width tb.y pageCount page
      let war := warisWarWords tb.x tb.width tb.y pageCount page
      match mak.find? (fun mw => war.any (fun ww => decide (|mw.top - ww.top| ≤ 5))) with
      | some mw => some (truncInt (mw.top - tb.y))
      | none => none
    else
      match ordinaryCandidates (headerKeywords name) tb.x tb.width tb.y 50 page with
      | [] => some 0
      | c :: _ => some (truncInt (c.top - tb.y))

/-! Children table extraction (extract_anak_table). -/

/-- One extracted child record: the dict keys that have been assigned. -/
structure Child where
  nama : Option Str := none
  no_mykad : Option Str := none
  umur : Option Str := none
  status : Option Str := none
deriving DecidableEq

/-- Cell text: empty for a missing cell, else stripped (an empty string cell is
falsy in the source and also yields the empty string). -/
def cellVal : Option Str → Str
  | none => []
  | some t => stripWs t

/-- Assign one cell value to the child record according to the lowercased
header name, in the if/elif order of the source. -/
def updateChild (c : Child) (fieldName : Str) (v : Str) : Child :=
  if containsSub ("nama").data fieldName then { c with nama := some v }
  else if containsSub ("mykad").data fieldName || containsSub ("mykid").data fieldName then
    { c with no_mykad := some v }
  else if containsSub ("umur").data fieldName then { c with umur := some v }
  else if containsSub ("status").data fieldName || containsSub ("hubungan").data fieldName then
    { c with status := some v }
  else c

/-- Build a child from one row: cells are matched positionally against the
truthy header cells. -/
def rowToChild (header row : List (Option Str)) : Child :=
  row.enum.foldl
    (fun c ic =>
      match header.get? ic.1 with
      | some (some hc) =>
        if hc.isEmpty then c else updateChild c (lower (stripWs hc)) (cellVal ic.2)
      | _ => c)
    {}

/-- A row all of whose cells are missing or whitespace. -/
def isBlankRow (row : List (Option Str)) : Bool :=
  row.all (fun cell =>
    match cell with
    | none => true
    | some t => (stripWs t).isEmpty)

/-- A child to which at least one cell contributed. -/
def childNonEmpty (c : Child) : Bool :=
  c.nama.isSome || c.no_mykad.isSome || c.umur.isSome || c.status.isSome

/-- Data rows of an accepted table: blank rows are skipped, rows contributing
no recognized cell are dropped. -/
def processRows (header : List (Option Str)) : List (List (Option Str)) → List Child
  | [] => []
  | row :: rest =>
    if row.isEmpty || isBlankRow row then processRows header rest
    else
      let ch := rowToChild header row
      if childNonEmpty ch then ch :: processRows header rest
      else processRows header rest

/-- Header row joined with spaces after uppercasing, missing cells as empty. -/
def headerText (header : List (Option Str)) : Str :=
  List.intercalate (" ").data (header.map (fun cell => upper (cell.getD [])))

/-- Acceptance test for the children table: at least two rows, and the header
text contains NAMA, MYKAD and UMUR. -/
def acceptTable (t : List (List (Option Str))) : Bool :=
  decide (2 ≤ t.length) &&
    (let ht := headerText (t.headD [])
     containsSub ("NAMA").data ht && containsSub ("MYKAD").data ht &&
     containsSub ("UMUR").data ht)

/-- extract_anak_table over the detected tables: the first accepted table is
processed, otherwise no children. -/
def extractAnakTableFrom (tables : List (List (List (Option Str)))) : List Child :=
  match tables.find? acceptTable with
  | some t => processRows (t.headD []) t.tail
  | none => []

/-- extract_anak_table on a page. -/
def extractAnakTable (page : Page) : List Child := extractAnakTableFrom page.tables

/-! Border detection (app/pdf_cropper.py, decision core of detect_border).
The OpenCV primitives are abstracted to their outputs: the image dimensions,
the bounding rectangle of the largest contour, and the vertex count of the
polygon approximation of that contour. -/

/-- detect_border decision: reject when the rectangle covers less than 80
percent of the image, starts less than 30 pixels from an edge, starts more
than 10 percent of the page size from an edge, or the polygon approximation
does not have 4 to 6 vertices; otherwise return the rectangle. -/
def detectBorder (imgWidth imgHeight x y w h nApprox : Nat) : Option (Nat × Nat × Nat × Nat) :=
  if ((w * h : Nat) : ℚ) < (0.8 : ℚ) * ((imgWidth * imgHeight : Nat) : ℚ) then none
  else if x < 30 ∨ y < 30 then none
  else if ((x : ℚ) > (imgWidth : ℚ) * (0.10 : ℚ)) ∨ ((y : ℚ) > (imgHeight : ℚ) * (0.10 : ℚ)) then none
  else if nApprox < 4 ∨ 6 < nApprox then none
  else some (x, y, w, h)

/-- Modelled from the spec (section 4.1 and constants V2_OFFSET_X, V2_OFFSET_Y
in app/config/constants.py): the fixed border offset of 28.34 units that the
spec says is applied uniformly to every field box of a v2 document. The
extraction pipeline in app/str_extractor.py never applies it; this definition
exists only to compare the spec claim with the code. -/
def specV2ShiftBox (b : Box) : Box :=
  { b with x := b.x + (28.34 : ℚ), y := b.y + (28.34 : ℚ) }

/-! Structured record (structure_data) and the full extraction pipeline
(extract_from_pdf). -/

/-- A flat string dict, as built by the field loop of extract_from_pdf. -/
abbrev Dict := List (Str × Str)

/-- Dict lookup. -/
def getStr (d : Dict) (k : Str) : Option Str :=
  (d.find? (fun p => p.1 == k)).map Prod.snd

/-- Dict get with empty-string default. -/
def dget (d : Dict) (k : Str) : Str := (getStr d k).getD []

/-- Python truthiness of dict.get(k): present and non-empty. -/
def truthy (d : Dict) (k : Str) : Bool :=
  match getStr d k with
  | some v => !v.isEmpty
  | none => false

/-- The address parts appended by structure_data, in order, keeping only the
truthy ones. -/
def addressParts (pem : Dict) : List Str :=
  (if truthy pem ("alamat_surat").data then [dget pem ("alamat_surat").data] else []) ++
  (if truthy pem ("poskod").data then [dget pem ("poskod").data] else []) ++
  (if truthy pem ("bandar_daerah").data then [dget pem ("bandar_daerah").data] else []) ++
  (if truthy pem ("negeri").data then [dget pem ("negeri").data] else [])

/-- The merged address of structure_data: the comma join of all truthy parts,
then section-label cleaning. No deduplication is performed by the source. -/
def fullAddressOf (pem : Dict) : Str :=
  cleanRemoveSectionLabels (List.intercalate (", ").data (addressParts pem))

/-- document_info block of the structured record. -/
structure DocumentInfo where
  type : Str
  tarikh_cetak : Str
  extraction_date : Str
  extraction_version : Str
deriving DecidableEq

/-- Bank sub-record. -/
structure BankOut where
  nama_bank : Str
  no_akaun : Str
deriving DecidableEq

/-- Applicant group of the structured record. -/
structure PemohonOut where
  nama : Str
  no_mykad : Str
  umur : Str
  jantina : Str
  alamat : Str
  poskod : Str
  bandar_daerah : Str
  negeri : Str
  telefon_bimbit : Str
  telefon_rumah : Str
  email : Str
  pekerjaan : Str
  pendapatan_bulanan : Str
  status_perkahwinan : Str
  tarikh_perkahwinan : Str
  bank : BankOut
deriving DecidableEq

/-- Spouse group of the structured record. -/
structure PasanganOut where
  nama : Str
  no_mykad : Str
  telefon : Str
  jantina : Str
  pekerjaan : Str
  bank : BankOut
deriving DecidableEq

/-- Next-of-kin group of the structured record. -/
structure WarisOut where
  hubungan : Str
  no_pengenalan : Str
  nama : Str
  telefon : Str
deriving DecidableEq

/-- The structured record produced once per document. -/
structure StructuredData where
  document_info : DocumentInfo
  pemohon : PemohonOut
  pasangan : PasanganOut
  anak_anak : List Child
  waris : WarisOut
deriving DecidableEq

/-- structure_data: group the flat dicts into the structured record, applying
the designated cleaner per field. The extraction timestamp is passed in. -/
def structureData (now : Str) (pem pas war : Dict) (children : List Child) : StructuredData :=
  { document_info :=
      { type := ("Sumbangan Tunai Rahmah (STR)").data
        tarikh_cetak := dget pem ("tarikh_cetak").data
        extraction_date := now
        extraction_version := ("v3.0-template-based").data }
    pemohon :=
      { nama := dget pem ("nama").data
        no_mykad := cleanMykadNumber (dget pem ("no_mykad").data)
        umur := cleanAgeField (dget pem ("umur").data)
        jantina := cleanJantinaField (dget pem ("jantina").data)
        alamat := fullAddressOf pem
        poskod := cleanPostalCode (dget pem ("poskod").data)
        bandar_daerah := cleanRemoveNumbers (dget pem ("bandar_daerah").data)
        negeri := cleanRemoveSectionLabels (dget pem ("negeri").data)
        telefon_bimbit := dget pem ("no_telefon_bimbit").data
        telefon_rumah := dget pem ("no_telefon_rumah").data
        email := cleanRemoveWhitespace (dget pem ("alamat_emel").data)
        pekerjaan := cleanRemoveTrailingRm (dget pem ("pekerjaan").data)
        pendapatan_bulanan := dget pem ("pendapatan_kasar").data
        status_perkahwinan := dget pem ("status_perkahwinan").data
        tarikh_perkahwinan := dget pem ("tarikh_perkahwinan").data
        bank :=
          { nama_bank := dget pem ("nama_bank").data
            no_akaun := dget pem ("no_akaun_bank").data } }
    pasangan :=
      { nama := dget pas ("nama").data
        no_mykad := dget pas ("no_mykad").data
        telefon := cleanNumbersOnly (dget pas ("no_telefon").data)
        jantina := cleanJantinaField (dget pas ("jantina").data)
        pekerjaan := cleanRemoveSectionLabels (dget pas ("pekerjaan").data)
        bank :=
          { nama_bank := dget pas ("nama_bank").data
            no_akaun := dget pas ("no_akaun_bank").data } }
    anak_anak := children
    waris :=
      { hubungan := cleanAlphabetsOnly (dget war ("hubungan").data)
        no_pengenalan := cleanNumbersOnly (dget war ("no_pengenalan").data)
        nama := cleanAlphabetsOnly (dget war ("nama").data)
        telefon := cleanNumbersOnly (dget war ("no_telefon").data) } }

/-- The extractor state: the constructor-time template path (load_template
never updates it) and the currently loaded field mapping. -/
structure ExtractorState where
  template_path : Str
  fields : Fields
deriving DecidableEq

/-- The template registry: load_template as a mapping from template path to
its field mapping. -/
abbrev TemplateEnv := Str → Fields

/-- Path of the spouse-inclusive template. -/
def withPasanganPath : Str := ("app/templates/template_with_pasangan.json").data

/-- Path of the spouse-free template. -/
def withoutPasanganPath : Str := ("app/templates/template_without_pasangan.json").data

/-- Constructor-default base template path. -/
def basePath : Str := ("app/templates/template.json").data

/-- Stage 1 of extract_from_pdf: the uppercased text of the marital-status box
of the currently loaded template (empty when the field is absent). -/
def stage1Status (fields : Fields) (page : Page) : Str :=
  match lookupField fields ("status_perkahwinan").data with
  | some box => upper (extractTextFromBox page box 0 5)
  | none => []

/-- Template choice: the spouse-inclusive template iff the status contains
KAHWIN. -/
def templateForStatus (status : Str) : Str :=
  if containsSub ("KAHWIN").data status then withPasanganPath else withoutPasanganPath

/-- Stage 2 of extract_from_pdf: reload (replacing the stored field mapping in
place) when the chosen template differs from the constructor-time path. -/
def stage2State (env : TemplateEnv) (st : ExtractorState) (page : Page) : ExtractorState :=
  let ttu := templateForStatus (stage1Status st.fields page)
  if ttu ≠ st.template_path then { st with fields := env ttu } else st

/-- Field-specific tolerance: 3 for jantina, else the default 5. -/
def tolFor (name : Str) : ℚ := if name = ("jantina").data then 3 else 5

/-- The field loop of extract_from_pdf: walk the field mapping in order,
skipping header fields and (when the waris section is absent) waris fields,
extract each box from its section page with its section offset, and group the
results into the applicant, spouse and waris dicts. -/
def groupFieldLoop (page warisPage : Page) (pemOff pasOff anakOff : ℤ) (warisOff : Option ℤ)
    (warisExists : Bool) : Fields → Dict × Dict × Dict
  | [] => ([], [], [])
  | (name, box) :: rest =>
    let r := groupFieldLoop page warisPage pemOff pasOff anakOff warisOff warisExists rest
    if endsWithB ("_header").data name then r
    else if isPrefixB ("waris_").data name && !warisExists then r
    else
      let offPage : ℤ × Page :=
        if isPrefixB ("waris_").data name then (warisOff.getD 0, warisPage)
        else if isPrefixB ("pasangan_").data name then (pasOff, page)
        else if isPrefixB ("anak_").data name then (anakOff, page)
        else (pemOff, page)
      let text := extractTextFromBox offPage.2 box ((offPage.1 : ℤ) : ℚ) (tolFor name)
      if isPrefixB ("pasangan_").data name then
        (r.1, ((replaceStr ("pasangan_").data [] name, text) :: r.2.1, r.2.2))
      else if isPrefixB ("waris_").data name then
        (r.1, (r.2.1, ((replaceStr ("waris_").data [] name, text) :: r.2.2)))
      else ((name, text) :: r.1, r.2)

/-- extract_from_pdf up to (but excluding) structure_data: template selection,
section-offset detection including the page-2 waris fallback, the field loop
and the children table. None only for a document with no pages. -/
def extractFromPdfGroups (env : TemplateEnv) (st : ExtractorState) :
    List Page → Option (Dict × Dict × Dict × List Child × ExtractorState)
  | [] => none
  | page :: rest =>
    let st1 := stage2State env st page
    let pageCount := rest.length + 1
    let pemOff := (detectSectionOffset st1.fields page ("maklumat_pemohon_header").data pageCount).getD 0
    let pasOff := (detectSectionOffset st1.fields page ("maklumat_pasangan_header").data pageCount).getD 0
    let anakOff := (detectSectionOffset st1.fields page ("maklumat_anak_header").data pageCount).getD 0
    let warisOff0 := detectSectionOffset st1.fields page ("maklumat_waris_header").data pageCount
    let warisTriple : Bool × Option ℤ × Page :=
      match warisOff0, rest with
      | some o, _ => (true, some o, page)
      | none, [] => (false, none, page)
      | none, p2 :: _ =>
        match detectSectionOffset st1.fields p2 ("maklumat_waris_header").data pageCount with
        | some o2 => (true, some o2, p2)
        | none => (false, none, page)
    let g := groupFieldLoop page warisTriple.2.2 pemOff pasOff anakOff warisTriple.2.1
      warisTriple.1 st1.fields
    some (g.1, g.2.1, g.2.2, extractAnakTable page, st1)

/-- extract_from_pdf: the grouped fields assembled by structure_data, together
with the extractor state left behind by the call. -/
def extractFromPdf (env : TemplateEnv) (now : Str) (st : ExtractorState) (pages : List Page) :
    Option (StructuredData × ExtractorState) :=
  (extractFromPdfGroups env st pages).map
    (fun g => (structureData now g.1 g.2.1 g.2.2.1 g.2.2.2.1, g.2.2.2.2))

/-! Concrete fixtures used by the claim theorems, their witnesses and the
counterexamples. -/

/-- Marital-status box of the test templates. -/
def statusBox : Box := { x := 0, y := 0, width := 100, height := 20 }

/-- Applicant header box of the spouse-inclusive test template. -/
def pemHdrBox : Box := { x := 0, y := 50, width := 100, height := 10 }

/-- Applicant name box of the spouse-inclusive test template. -/
def namaBox : Box := { x := 200, y := 60, width := 50, height := 10 }

/-- Base test template: only the marital-status box. -/
def F0 : Fields := [(("status_perkahwinan").data, statusBox)]

/-- Spouse-inclusive test template. -/
def F1 : Fields :=
  [(("maklumat_pemohon_header").data, pemHdrBox),
   (("status_perkahwinan").data, statusBox),
   (("nama").data, namaBox)]

/-- Status word of the married test document. -/
def wStatus : Word := { text := ("BERKAHWIN").data, x0 := 10, x1 := 60, top := 5, bottom := 15 }

/-- Applicant header word, printed 30 units below its template position. -/
def wHdr : Word := { text := ("MAKLUMAT").data, x0 := 5, x1 := 60, top := 80, bottom := 90 }

/-- Applicant name word, inside the name box once the detected offset of 30 is
applied. -/
def wNama : Word := { text := ("ALI").data, x0 := 210, x1 := 230, top := 90, bottom := 100 }

/-- First page of the married test document. -/
def page1 : Page := { words := [wStatus, wHdr, wNama], tables := [] }

/-- Test template registry. -/
def env1 : TemplateEnv := fun p =>
  if p = withPasanganPath then F1 else if p = withoutPasanganPath then [] else F0

/-- Freshly constructed extractor state holding the base test template. -/
def st0 : ExtractorState := { template_path := basePath, fields := F0 }

/-- Status word of the single test document. -/
def wBujang : Word := { text := ("BUJANG").data, x0 := 10, x1 := 60, top := 5, bottom := 15 }

/-- First page of the single test document. -/
def pageBujang : Page := { words := [wBujang], tables := [] }

/-- Next-of-kin header box of the waris test template. -/
def warisHdrBox : Box := { x := 0, y := 0, width := 100, height := 10 }

/-- Waris test template. -/
def c5fields : Fields := [(("maklumat_waris_header").data, warisHdrBox)]

/-- MAKLUMAT word 1000 units below the template header position. -/
def c5w1 : Word := { text := ("MAKLUMAT").data, x0 := 5, x1 := 60, top := 1000, bottom := 1010 }

/-- WARIS word on the same visual line as c5w1. -/
def c5w2 : Word := { text := ("WARIS").data, x0 := 40, x1 := 80, top := 1002, bottom := 1012 }

/-- Page whose only waris header pair sits 1000 units below the template
position. -/
def c5page : Page := { words := [c5w1, c5w2], tables := [] }

/-- MAKLUMAT word close to the template position, with no WARIS companion. -/
def c4word : Word := { text := ("MAKLUMAT").data, x0 := 5, x1 := 60, top := 30, bottom := 40 }

/-- Page holding a lone MAKLUMAT keyword and no WARIS word at all. -/
def c4page : Page := { words := [c4word], tables := [] }

/-- Children-table header row of the C7 scenario. -/
def c7hdr : List (Option Str) :=
  [some ("NAMA").data, some ("NO. MYKAD/MYKID").data, some ("UMUR").data, some ("STATUS").data]

/-- First data row of the C7 scenario. -/
def c7r1 : List (Option Str) :=
  [some ("AHMAD BIN ALI").data, some ("120101070123").data, some ("10 TAHUN").data,
   some ("ANAK").data]

/-- Fully blank row of the C7 scenario. -/
def c7blank : List (Option Str) := [some [], none, some ("  ").data, none]

/-- Second data row of the C7 scenario. -/
def c7r2 : List (Option Str) :=
  [some ("SITI BINTI ALI").data, some ("120505070456").data, some ("7 TAHUN").data,
   some ("ANAK").data]

/-- The C7 table: header plus three rows, one of them blank. -/
def c7table : List (List (Option Str)) := [c7hdr, c7r1, c7blank, c7r2]

/-- Free-text address that already contains the postal code digits, the
district and a state synonym. -/
def c2addr : Str := ("NO 5 JALAN SATU 50480 KUALA LUMPUR WILAYAH PERSEKUTUAN").data

/-- Applicant dict of the C2 scenario. -/
def c2pem : Dict :=
  [(("alamat_surat").data, c2addr),
   (("poskod").data, ("50480").data),
   (("bandar_daerah").data, ("KUALA LUMPUR").data),
   (("negeri").data, ("W.P. KUALA LUMPUR").data)]

/-! Helper lemmas about the Python split model. -/

/-- With a non-empty accumulator, the next emitted token is the accumulator
followed by the leading non-whitespace run of the remaining text. -/
lemma pySplitGo_cons_head (rest : Str) : ∀ acc : Str, acc ≠ [] →
    ∃ tl, pySplitGo rest acc = (acc.reverse ++ rest.takeWhile (fun c => !pySpace c)) :: tl := by
  induction rest with
  | nil =>
    intro acc hacc
    refine ⟨[], ?_⟩
    simp [pySplitGo, hacc]
  | cons c r ih =>
    intro acc hacc
    by_cases hc : pySpace c
    · refine ⟨pySplitGo r [], ?_⟩
      simp [pySplitGo, hc, hacc, List.takeWhile_cons]
    · obtain ⟨tl, htl⟩ := ih (c :: acc) (by simp)
      refine ⟨tl, ?_⟩
      simp only [pySplitGo, hc, if_false, Bool.false_eq_true]
      rw [htl]
      simp [List.takeWhile_cons, hc]

/-- The split is empty exactly when the text is all whitespace. -/
lemma pySplitGo_nil_iff (t : Str) : pySplitGo t [] = [] ↔ t.all pySpace = true := by
  induction t with
  | nil => simp [pySplitGo]
  | cons c r ih =>
    by_cases hc : pySpace c
    · simp [pySplitGo, hc, ih]
    · obtain ⟨tl, htl⟩ := pySplitGo_cons_head r [c] (by simp)
      simp [pySplitGo, hc, htl]

/-- The head of a non-empty split is the first whitespace-delimited token. -/
lemma pySplit_head (t : Str) (x : Str) (tl : List Str) (h : pySplit t = x :: tl) :
    x = firstToken t := by
  induction t with
  | nil => simp [pySplit, pySplitGo] at h
  | cons c r ih =>
    by_cases hc : pySpace c
    · have h' : pySplit r = x :: tl := by
        simpa [pySplit, pySplitGo, hc] using h
      rw [ih h']
      simp [firstToken, List.dropWhile_cons, hc]
    · obtain ⟨tl2, htl⟩ := pySplitGo_cons_head r [c] (by simp)
      have h' : pySplitGo r [c] = x :: tl := by
        simpa [pySplit, pySplitGo, hc] using h
      rw [htl] at h'
      have hx := (List.cons.injEq _ _ _ _).mp h'
      rw [← hx.1]
      simp [firstToken, List.dropWhile_cons, List.takeWhile_cons, hc]

/-- A whitespace character is not a digit. -/
lemma pySpace_not_digit (c : Char) (h : pySpace c = true) : isDigitChar c = false := by
  simp only [pySpace, Bool.or_eq_true, beq_iff_eq] at h
  rcases h with ((((h1 | h1) | h1) | h1) | h1) | h1 <;> subst h1 <;> decide

/-- An all-whitespace text holds no digits. -/
lemma all_space_no_digit (t : Str) (h : t.all pySpace = true) : t.filter isDigitChar = [] := by
  induction t with
  | nil => rfl
  | cons c r ih =>
    rw [List.all_cons, Bool.and_eq_true] at h
    simp [List.filter_cons, pySpace_not_digit c h.1, ih h.2]

/-- C6: the MyKad cleaner keeps only the token before the first whitespace,
keeps its digits, truncates to exactly the first 12 digits when 12 or more
remain and passes shorter digit strings through unchanged; in particular the
value 740307015359 followed by a stray 51 cleans to 740307015359. -/
theorem c6_mykad_cleaner :
    (∀ t : Str, cleanMykadNumber t =
      (if 12 ≤ ((firstToken t).filter isDigitChar).length
       then ((firstToken t).filter isDigitChar).take 12
       else (firstToken t).filter isDigitChar)) ∧
    cleanMykadNumber ("740307015359 51").data = ("740307015359").data := by
  refine ⟨fun t => ?_, by decide⟩
  cases t with
  | nil => decide
  | cons c cs =>
    rcases hsplit : pySplit (c :: cs) with _ | ⟨x, xs⟩
    · have hall : (c :: cs).all pySpace = true := (pySplitGo_nil_iff (c :: cs)).mp hsplit
      have hdig := all_space_no_digit (c :: cs) hall
      have hdrop : (c :: cs).dropWhile pySpace = [] := by
        rw [List.dropWhile_eq_nil_iff]
        intro y hy
        exact (List.all_eq_true.mp hall) y hy
      simp [cleanMykadNumber, hsplit, hdig, firstToken, hdrop]
    · have hx := pySplit_head (c :: cs) x xs hsplit
      simp [cleanMykadNumber, hsplit, hx]

/-- C10: when a non-empty gender field contains both PEREMPUAN and LELAKI in
its uppercase form, the cleaner returns exactly PEREMPUAN: the PEREMPUAN
branch is checked first. -/
theorem c10_gender_precedence (t : Str) (hne : t ≠ [])
    (hp : containsSub ("PEREMPUAN").data (upper t) = true)
    (hl : containsSub ("LELAKI").data (upper t) = true) :
    cleanJantinaField t = ("PEREMPUAN").data := by
  have hne' : t.isEmpty = false := by
    cases t with
    | nil => exact absurd rfl hne
    | cons c cs => rfl
  simp [cleanJantinaField, hne', hp]

/-- C10 witness: a field containing both gender words cleans to PEREMPUAN. -/
theorem c10_gender_precedence_witness :
    cleanJantinaField ("PEREMPUAN LELAKI").data = ("PEREMPUAN").data :=
  c10_gender_precedence (("PEREMPUAN LELAKI").data) (by decide) (by decide) (by decide)

/-- C8: the border detector accepts exactly when the largest-contour bounding
rectangle covers at least 80 percent of the page, starts at least 30 pixels
from the edges, starts within 10 percent of the page size, and the polygon
approximation has 4 to 6 vertices; a rectangle inset 40 pixels covering about
85 percent with 4 vertices is accepted, the same rectangle inset 5 pixels is
rejected. -/
theorem c8_border_rule :
    (∀ wI hI x y w h n : Nat,
      detectBorder wI hI x y w h n ≠ none ↔
        ((0.8 : ℚ) * ((wI * hI : Nat) : ℚ) ≤ ((w * h : Nat) : ℚ) ∧
         30 ≤ x ∧ 30 ≤ y ∧
         (x : ℚ) ≤ (wI : ℚ) * (0.10 : ℚ) ∧ (y : ℚ) ≤ (hI : ℚ) * (0.10 : ℚ) ∧
         4 ≤ n ∧ n ≤ 6)) ∧
    detectBorder 1025 1025 40 40 945 945 4 = some (40, 40, 945, 945) ∧
    detectBorder 1025 1025 5 5 1015 1015 4 = none := by
  refine ⟨?_, by with_unfolding_all decide, by with_unfolding_all decide⟩
  intro wI hI x y w h n
  unfold detectBorder
  split_ifs with hA hB hC hD
  · simp only [ne_eq, not_true_eq_false, false_iff, not_and]
    intro h1
    exact absurd h1 (by exact not_le.mpr hA)
  · simp only [ne_eq, not_true_eq_false, false_iff, not_and]
    intro _ h2 h3
    rcases hB with hb | hb <;> omega
  · simp only [ne_eq, not_true_eq_false, false_iff, not_and]
    intro _ _ _ h4 h5
    rcases hC with hc | hc
    · exact absurd h4 (not_le.mpr hc)
    · exact fun _ => absurd h5 (not_le.mpr hc)
  · simp only [ne_eq, not_true_eq_false, false_iff, not_and]
    intro _ _ _ _ _ h6 h7
    rcases hD with hd | hd <;> omega
  · simp only [ne_eq, reduceCtorEq, not_false_eq_true, true_iff]
    push_neg at hA hB hC hD
    exact ⟨hA, hB.1, hB.2, hC.1, hC.2, hD.1, hD.2⟩

/-- C8 witness: a concrete accepted geometry obtained through the rule. -/
theorem c8_border_rule_witness : detectBorder 400 400 35 35 360 360 4 ≠ none :=
  (c8_border_rule.1 400 400 35 35 360 360 4).mpr
    (by constructor
        · push_cast
          norm_num
        · refine ⟨by norm_num, by norm_num, ?_, ?_, by norm_num, by norm_num⟩ <;> norm_num)

/-- A page holds a MAKLUMAT word and a separate WARIS word inside the header
x-band on the same visual line. This is the anchoring condition of the claim,
with no vertical restriction. -/
def warisPairB (tb : Box) (page : Page) : Bool :=
  page.words.any (fun w1 =>
    containsSub ("MAKLUMAT").data (upper w1.text) && inHeaderXRange tb.x tb.width w1 &&
    page.words.any (fun w2 =>
      containsSub ("WARIS").data (upper w2.text) &&
      !containsSub ("MAKLUMAT").data (upper w2.text) &&
      inHeaderXRange tb.x tb.width w2 && decide (|w1.top - w2.top| ≤ 5)))

/-- C4: when the template has the waris header box and the page holds no
MAKLUMAT and WARIS pair in the expected x-band on one visual line (within 5
units), next-of-kin offset detection returns the distinguished none sentinel,
never 0, so a single matched keyword is never used as an anchor. -/
theorem c4_waris_not_found (fields : Fields) (page : Page) (pc : Nat) (tb : Box)
    (hf : lookupField fields ("maklumat_waris_header").data = some tb)
    (hnp : warisPairB tb page = false) :
    detectSectionOffset fields page ("maklumat_waris_header").data pc = none := by
  unfold detectSectionOffset
  simp only [hf]
  rcases hfind : (warisMakWords tb.x tb.width tb.y pc page).find?
      (fun mw => (warisWarWords tb.x tb.width tb.y pc page).any
        (fun ww => decide (|mw.top - ww.top| ≤ 5))) with _ | mw
  · rw [hfind]
    simp
  · exfalso
    have hmem := List.mem_of_find?_eq_some hfind
    have hp := List.find?_some hfind
    rw [List.any_eq_true] at hp
    obtain ⟨ww, hwwmem, hd⟩ := hp
    rw [warisMakWords, List.mem_filter] at hmem
    obtain ⟨hmwElem, hmwP⟩ := hmem
    simp only [Bool.and_eq_true] at hmwP
    obtain ⟨⟨hmwX, hmwY⟩, hmwC⟩ := hmwP
    rw [warisWarWords, List.mem_filter] at hwwmem
    obtain ⟨hwwElem, hwwP⟩ := hwwmem
    simp only [Bool.and_eq_true] at hwwP
    obtain ⟨⟨⟨hwwX, hwwY⟩, hwwNM⟩, hwwC⟩ := hwwP
    have hpair : warisPairB tb page = true := by
      rw [warisPairB, List.any_eq_true]
      refine ⟨mw, hmwElem, ?_⟩
      simp only [Bool.and_eq_true, List.any_eq_true]
      exact ⟨⟨hmwC, hmwX⟩, ww, hwwElem, ⟨⟨hwwC, hwwNM⟩, hwwX⟩, hd⟩
    rw [hpair] at hnp
    exact Bool.noConfusion hnp

/-- C4 witness: a page with a lone MAKLUMAT keyword and no WARIS word yields
the none sentinel. -/
theorem c4_waris_not_found_witness :
    detectSectionOffset c5fields c4page ("maklumat_waris_header").data 1 = none :=
  c4_waris_not_found c5fields c4page 1 warisHdrBox (by decide)
    (by with_unfolding_all decide)

/-- C5: a word is a header candidate only if it lies in the widened template
x-band and, vertically, within 50 units of the template header for ordinary
sections, or within 200 units for the next-of-kin header on a single-page
document. -/
theorem c5_candidate_bounds :
    (∀ (kws : List Str) (tx tw ty : ℚ) (page : Page) (wd : Word),
       wd ∈ ordinaryCandidates kws tx tw ty 50 page →
       tx - 20 ≤ wd.x0 ∧ wd.x0 ≤ tx + tw + 20 ∧ |wd.top - ty| ≤ 50) ∧
    (∀ (tx tw ty : ℚ) (page : Page) (wd : Word),
       wd ∈ warisMakWords tx tw ty 1 page →
       tx - 20 ≤ wd.x0 ∧ wd.x0 ≤ tx + tw + 20 ∧ |wd.top - ty| ≤ 200) ∧
    (∀ (tx tw ty : ℚ) (page : Page) (wd : Word),
       wd ∈ warisWarWords tx tw ty 1 page →
       tx - 20 ≤ wd.x0 ∧ wd.x0 ≤ tx + tw + 20 ∧ |wd.top - ty| ≤ 200) := by
  refine ⟨?_, ?_, ?_⟩
  · intro kws tx tw ty page wd h
    rw [ordinaryCandidates, List.mem_filter] at h
    obtain ⟨-, hb⟩ := h
    rw [Bool.and_eq_true, Bool.and_eq_true] at hb
    obtain ⟨⟨-, hx⟩, hr⟩ := hb
    rw [inHeaderXRange, Bool.and_eq_true, decide_eq_true_eq, decide_eq_true_eq] at hx
    rw [decide_eq_true_eq] at hr
    exact ⟨hx.1, hx.2, hr⟩
  · intro tx tw ty page wd h
    rw [warisMakWords, List.mem_filter] at h
    obtain ⟨-, hb⟩ := h
    rw [Bool.and_eq_true, Bool.and_eq_true] at hb
    obtain ⟨⟨hx, hy⟩, -⟩ := hb
    rw [inHeaderXRange, Bool.and_eq_true, decide_eq_true_eq, decide_eq_true_eq] at hx
    rw [warisYOk, Bool.or_eq_true, decide_eq_true_eq, decide_eq_true_eq] at hy
    rcases hy with hlt | hy
    · exact absurd hlt (by norm_num)
    · exact ⟨hx.1, hx.2, hy⟩
  · intro tx tw ty page wd h
    rw [warisWarWords, List.mem_filter] at h
    obtain ⟨-, hb⟩ := h
    rw [Bool.and_eq_true, Bool.and_eq_true, Bool.and_eq_true] at hb
    obtain ⟨⟨⟨hx, hy⟩, -⟩, -⟩ := hb
    rw [inHeaderXRange, Bool.and_eq_true, decide_eq_true_eq, decide_eq_true_eq] at hx
    rw [warisYOk, Bool.or_eq_true, decide_eq_true_eq, decide_eq_true_eq] at hy
    rcases hy with hlt | hy
    · exact absurd hlt (by norm_num)
    · exact ⟨hx.1, hx.2, hy⟩

/-- C5 counterexample: on a two-page document the next-of-kin header search
anchors on a pair of words 1000 units below the template position, far outside
the 200-unit radius, so the vertical constraint is not enforced on multi-page
documents. -/
theorem c5_counterexample :
    detectSectionOffset c5fields c5page ("maklumat_waris_header").data 2 = some 1000 ∧
    (∀ wd ∈ c5page.words, ¬(|wd.top - warisHdrBox.y| ≤ 200)) := by
  constructor
  · with_unfolding_all decide
  · with_unfolding_all decide

/-- C5 witness: a concrete in-band candidate satisfies the ordinary bounds. -/
theorem c5_candidate_bounds_witness :
    (0 : ℚ) - 20 ≤ c4word.x0 ∧ c4word.x0 ≤ 0 + 100 + 20 ∧ |c4word.top - 0| ≤ 50 :=
  c5_candidate_bounds.1 [("MAKLUMAT").data] 0 100 0 c4page c4word
    (by with_unfolding_all decide)

/-- C7: the children-table extractor accepts the first detected table whose
header contains the name, MyKAD and age tokens, skips fully blank rows, drops
rows contributing no recognized cell, and on the concrete header-plus-three-row
table with one blank row yields exactly 2 child records. -/
theorem c7_children_table :
    extractAnakTableFrom [c7table] =
      [{ nama := some ("AHMAD BIN ALI").data, no_mykad := some ("120101070123").data,
         umur := some ("10 TAHUN").data, status := some ("ANAK").data },
       { nama := some ("SITI BINTI ALI").data, no_mykad := some ("120505070456").data,
         umur := some ("7 TAHUN").data, status := some ("ANAK").data }] ∧
    (extractAnakTableFrom [c7table]).length = 2 ∧
    (∀ (header : List (Option Str)) (rows : List (List (Option Str)))
       (row : List (Option Str)),
       isBlankRow row = true → processRows header (row :: rows) = processRows header rows) ∧
    (∀ (header : List (Option Str)) (rows : List (List (Option Str)))
       (row : List (Option Str)),
       childNonEmpty (rowToChild header row) = false →
       processRows header (row :: rows) = processRows header rows) ∧
    (∀ (t : List (List (Option Str))) (ts : List (List (List (Option Str)))),
       (acceptTable t = true → extractAnakTableFrom (t :: ts) = processRows (t.headD []) t.tail) ∧
       (acceptTable t = false → extractAnakTableFrom (t :: ts) = extractAnakTableFrom ts)) := by
  refine ⟨by decide, by decide, ?_, ?_, ?_⟩
  · intro header rows row h
    simp [processRows, h]
  · intro header rows row h
    by_cases hb : (row.isEmpty || isBlankRow row) = true
    · simp [processRows, hb]
    · simp [processRows, hb, h]
  · intro t ts
    constructor <;> intro h <;> simp [extractAnakTableFrom, List.find?, h]

/-- C7 witness: the blank-row skip and the rejected-table skip at concrete
inputs. -/
theorem c7_children_table_witness :
    processRows c7hdr [c7blank, c7r2] = processRows c7hdr [c7r2] ∧
    extractAnakTableFrom ([[], []] :: [c7table]) = extractAnakTableFrom [c7table] :=
  ⟨c7_children_table.2.2.1 c7hdr [c7r2] c7blank (by decide),
   (c7_children_table.2.2.2.2 [[], []] [c7table]).2 (by decide)⟩

/-- The extractor state returned by extract_from_pdf is exactly the stage-2
state. -/
lemma extractFromPdf_snd (env : TemplateEnv) (now : Str) (st : ExtractorState)
    (page : Page) (rest : List Page) :
    (extractFromPdf env now st (page :: rest)).map (fun r => r.2) =
      some (stage2State env st page) := rfl

/-- C3, amended: positional adjustment never mutates stored boxes (offsets are
passed at lookup time), and the stored template path is never changed; but the
stored field mapping is replaced in place whenever the template selected from
the marital status differs from the constructor-time path, and is kept exactly
when it coincides. -/
theorem c3_state_after_extract (env : TemplateEnv) (now : Str) (st : ExtractorState)
    (page : Page) (rest : List Page) :
    (extractFromPdf env now st (page :: rest)).map (fun r => r.2) =
      some (stage2State env st page) ∧
    (stage2State env st page).template_path = st.template_path ∧
    (templateForStatus (stage1Status st.fields page) = st.template_path →
      stage2State env st page = st) ∧
    (templateForStatus (stage1Status st.fields page) ≠ st.template_path →
      (stage2State env st page).fields =
        env (templateForStatus (stage1Status st.fields page))) := by
  refine ⟨extractFromPdf_snd env now st page rest, ?_, ?_, ?_⟩
  · rw [stage2State]
    split_ifs <;> rfl
  · intro h
    rw [stage2State]
    simp [h]
  · intro h
    rw [stage2State]
    simp [h]

/-- C3 counterexample: extracting the married test document from the freshly
loaded base template replaces the stored field mapping with the
spouse-inclusive template, so the mapping after the call differs from the
mapping before it. -/
theorem c3_counterexample :
    (extractFromPdf env1 [] st0 [page1]).map (fun r => r.2.fields) = some F1 ∧
    F1 ≠ st0.fields := by
  constructor
  · with_unfolding_all decide
  · decide

/-- C3 witness: when the selected template equals the stored path the state is
untouched, and on the married base-template document the stored mapping becomes
the registry entry of the selected template. -/
theorem c3_state_after_extract_witness :
    stage2State env1 { template_path := withoutPasanganPath, fields := [] } pageBujang =
      { template_path := withoutPasanganPath, fields := [] } ∧
    (stage2State env1 st0 page1).fields =
      env1 (templateForStatus (stage1Status st0.fields page1)) :=
  ⟨(c3_state_after_extract env1 [] { template_path := withoutPasanganPath, fields := [] }
      pageBujang []).2.2.1 (by with_unfolding_all decide),
   (c3_state_after_extract env1 [] st0 page1 []).2.2.2 (by with_unfolding_all decide)⟩

/-- C9: from the freshly constructed base-template state, the extraction loads
the spouse-inclusive template for the remaining extraction exactly when the
uppercased marital-status text contains KAHWIN, and the spouse-free template
otherwise. -/
theorem c9_template_selection (env : TemplateEnv) (now : Str) (st : ExtractorState)
    (page : Page) (rest : List Page)
    (hbase : st.template_path = basePath) :
    (stage2State env st page).fields =
      env (if containsSub ("KAHWIN").data (stage1Status st.fields page) then withPasanganPath
           else withoutPasanganPath) ∧
    (extractFromPdf env now st (page :: rest)).map (fun r => r.2.fields) =
      some (env (if containsSub ("KAHWIN").data (stage1Status st.fields page)
                 then withPasanganPath else withoutPasanganPath)) := by
  have hsel : (stage2State env st page).fields =
      env (if containsSub ("KAHWIN").data (stage1Status st.fields page) then withPasanganPath
           else withoutPasanganPath) := by
    rw [stage2State, templateForStatus]
    by_cases hc : containsSub ("KAHWIN").data (stage1Status st.fields page) = true
    · rw [if_pos hc]
      rw [if_pos (show withPasanganPath ≠ st.template_path by rw [hbase]; decide)]
    · rw [if_neg hc]
      rw [if_pos (show withoutPasanganPath ≠ st.template_path by rw [hbase]; decide)]
  refine ⟨hsel, ?_⟩
  have h2 := extractFromPdf_snd env now st page rest
  obtain ⟨pr, hpr, hpr2⟩ := Option.map_eq_some'.mp h2
  rw [hpr]
  simp only [Option.map_some']
  rw [hpr2, hsel]

/-- C9 witness: the BERKAHWIN document selects the spouse-inclusive template
and the BUJANG document the spouse-free one. -/
theorem c9_template_selection_witness :
    (stage2State env1 st0 page1).fields = env1 withPasanganPath ∧
    (stage2State env1 st0 pageBujang).fields = env1 withoutPasanganPath := by
  constructor
  · have h := (c9_template_selection env1 [] st0 page1 [] rfl).1
    have hc : containsSub ("KAHWIN").data (stage1Status st0.fields page1) = true := by
      with_unfolding_all decide
    rw [hc] at h
    simpa using h
  · have h := (c9_template_selection env1 [] st0 pageBujang [] rfl).1
    have hc : containsSub ("KAHWIN").data (stage1Status st0.fields pageBujang) = false := by
      with_unfolding_all decide
    rw [hc] at h
    simpa using h

/-- C2, amended: the merged address is the unconditional comma join of the
truthy components (free-text address, postal code, district, state); nothing is
deduplicated, so components already present in the free-text address are
appended again. The hypotheses say the joined text contains no section label,
is whitespace-stripped and has no trailing comma, so the label cleaner leaves
it unchanged. -/
theorem c2_merge_appends_all (pem : Dict)
    (h1 : findLabelIdx ("PEMOHON").data
      (List.intercalate (", ").data (addressParts pem)) = none)
    (h2 : findLabelIdx ("PASANGAN").data
      (List.intercalate (", ").data (addressParts pem)) = none)
    (h3 : findLabelIdx ("WARIS").data
      (List.intercalate (", ").data (addressParts pem)) = none)
    (h4 : findLabelIdx ("ANAK").data
      (List.intercalate (", ").data (addressParts pem)) = none)
    (h5 : stripWs (List.intercalate (", ").data (addressParts pem)) =
      List.intercalate (", ").data (addressParts pem))
    (h6 : rstripChars (",").data (List.intercalate (", ").data (addressParts pem)) =
      List.intercalate (", ").data (addressParts pem)) :
    fullAddressOf pem = List.intercalate (", ").data (addressParts pem) := by
  have truncAtLabel_none : ∀ (lab t : Str), findLabelIdx lab t = none →
      truncAtLabel lab t = t := by
    intro lab t h
    rw [truncAtLabel, h]
  rw [fullAddressOf, cleanRemoveSectionLabels]
  rcases hj : List.intercalate (", ").data (addressParts pem) with _ | ⟨c, cs⟩
  · rfl
  · rw [hj] at h1 h2 h3 h4 h5 h6
    simp only [List.isEmpty_cons, Bool.false_eq_true, if_false,
      truncAtLabel_none _ _ h1, truncAtLabel_none _ _ h2, truncAtLabel_none _ _ h3,
      truncAtLabel_none _ _ h4, h5, h6]

/-- C2 counterexample: an address that already contains the postal code
digits, the whole district and a state synonym still gets all three appended
again, so the merged token set differs from the free-text token set. -/
theorem c2_counterexample :
    containsSub ("50480").data
      (List.intercalate (" ").data (pySplit (upper c2addr))) = true ∧
    isStateInAddress (("W.P. KUALA LUMPUR").data) c2addr = true ∧
    ((pySplit (upper ("KUALA LUMPUR").data)).toFinset.card ≤
      2 * ((pySplit (upper ("KUALA LUMPUR").data)).toFinset ∩
        (pySplit (upper c2addr)).toFinset).card) ∧
    fullAddressOf c2pem =
      ("NO 5 JALAN SATU 50480 KUALA LUMPUR WILAYAH PERSEKUTUAN, 50480, KUALA LUMPUR, W.P. KUALA LUMPUR").data ∧
    (pySplit (fullAddressOf c2pem)).toFinset ≠ (pySplit c2addr).toFinset := by
  refine ⟨by decide, by decide, by decide, by decide, by decide⟩

/-- C2 witness: at the concrete record the merged address is literally the
comma join of all four components. -/
theorem c2_merge_appends_all_witness :
    fullAddressOf c2pem = List.intercalate (", ").data (addressParts c2pem) :=
  c2_merge_appends_all c2pem (by decide) (by decide) (by decide) (by decide)
    (by decide) (by decide)

/-- A dict lookup skips an entry with a different key. -/
lemma getStr_cons_ne (k q v : Str) (d : Dict) (h : q ≠ k) :
    getStr ((q, v) :: d) k = getStr d k := by
  unfold getStr
  rw [List.find?_cons_of_neg _ (by simp [h])]

/-- For a main-section field (no spouse, waris or anak prefix, not a header),
the field loop stores under the full field name the text extracted from the
stored box with the applicant offset. -/
lemma groupFieldLoop_main_get (page wp : Page) (pem pas an : ℤ) (wo : Option ℤ) (we : Bool) :
    ∀ (flds : Fields) (name : Str) (box : Box),
      lookupField flds name = some box →
      endsWithB ("_header").data name = false →
      isPrefixB ("waris_").data name = false →
      isPrefixB ("pasangan_").data name = false →
      isPrefixB ("anak_").data name = false →
      getStr (groupFieldLoop page wp pem pas an wo we flds).1 name =
        some (extractTextFromBox page box (pem : ℚ) (tolFor name)) := by
  intro flds
  induction flds with
  | nil =>
    intro name box hl h1 h2 h3 h4
    simp [lookupField] at hl
  | cons hd tl ih =>
    obtain ⟨n0, b0⟩ := hd
    intro name box hl h1 h2 h3 h4
    by_cases hn : n0 = name
    · subst hn
      have hb : box = b0 := by
        rw [lookupField, List.find?_cons_of_pos _ (by simp)] at hl
        simp only [Option.map_some'] at hl
        exact (Option.some.injEq _ _).mp hl.symm ▸ rfl
      subst hb
      rw [groupFieldLoop]
      simp only [h1, h2, h3, h4, Bool.false_and, Bool.false_eq_true, if_false]
      unfold getStr
      rw [List.find?_cons_of_pos _ (by simp)]
      rfl
    · have hl' : lookupField tl name = some box := by
        rw [lookupField, List.find?_cons_of_neg _ (by simp [hn])] at hl
        exact hl
      have IH := ih name box hl' h1 h2 h3 h4
      rw [groupFieldLoop]
      by_cases e1 : endsWithB ("_header").data n0 = true
      · simpa [e1] using IH
      · by_cases e2 : (isPrefixB ("waris_").data n0 && !we) = true
        · simpa [e1, e2] using IH
        · by_cases e3 : isPrefixB ("pasangan_").data n0 = true
          · simpa [e1, e2, e3] using IH
          · by_cases e4 : isPrefixB ("waris_").data n0 = true
            · rcases Bool.eq_false_or_eq_true we with hwe | hwe
              · simpa [e1, e3, e4, hwe] using IH
              · simpa [e1, e3, e4, hwe] using IH
            · simp only [e1, e2, e3, e4, Bool.false_and, Bool.false_eq_true, if_false]
              rw [getStr_cons_ne _ _ _ _ hn]
              exact IH

/-- C1, amended: the border detector can classify a raster as v2, but
extract_from_pdf never consults it: for every document, every main-section
field is extracted from its stored template box, unshifted, with the applicant
offset freshly recalculated by detect_section_offset; no 28.34-unit offset is
applied anywhere in the pipeline. -/
theorem c1_no_v2_offset
    (bw bh bx by' bwid bhgt bn : Nat)
    (hv2 : detectBorder bw bh bx by' bwid bhgt bn ≠ none)
    (env : TemplateEnv) (st : ExtractorState) (page : Page) (rest : List Page)
    (name : Str) (box : Box)
    (hl : lookupField (stage2State env st page).fields name = some box)
    (h1 : endsWithB ("_header").data name = false)
    (h2 : isPrefixB ("waris_").data name = false)
    (h3 : isPrefixB ("pasangan_").data name = false)
    (h4 : isPrefixB ("anak_").data name = false) :
    ∃ g, extractFromPdfGroups env st (page :: rest) = some g ∧
      getStr g.1 name = some (extractTextFromBox page box
        (((detectSectionOffset (stage2State env st page).fields page
            ("maklumat_pemohon_header").data (rest.length + 1)).getD 0 : ℤ) : ℚ)
        (tolFor name)) := by
  refine ⟨_, rfl, ?_⟩
  exact groupFieldLoop_main_get page _ _ _ _ _ _ ((stage2State env st page).fields)
    name box hl h1 h2 h3 h4

/-- C1 witness: on the married test document, classified v2 by the concrete
raster geometry, the nama field is extracted from its unshifted box with the
recalculated applicant offset. -/
theorem c1_no_v2_offset_witness :
    ∃ g, extractFromPdfGroups env1 st0 [page1] = some g ∧
      getStr g.1 ("nama").data = some (extractTextFromBox page1 namaBox
        (((detectSectionOffset (stage2State env1 st0 page1).fields page1
            ("maklumat_pemohon_header").data 1).getD 0 : ℤ) : ℚ)
        (tolFor ("nama").data)) :=
  c1_no_v2_offset 1025 1025 40 40 945 945 4 (by with_unfolding_all decide)
    env1 st0 page1 [] (("nama").data) namaBox (by with_unfolding_all decide)
    (by decide) (by decide) (by decide) (by decide)

/-- C1 counterexample: the concrete raster is classified v2, yet the pipeline
extracts ALI from the unshifted nama box (a word that the spec-shifted box
misses entirely), and the applicant section offset is recalculated to 30
rather than trusted. -/
theorem c1_counterexample :
    detectBorder 1025 1025 40 40 945 945 4 = some (40, 40, 945, 945) ∧
    (extractFromPdf env1 [] st0 [page1]).map (fun r => r.1.pemohon.nama) =
      some (("ALI").data) ∧
    extractTextFromBox page1 (specV2ShiftBox namaBox) 0 5 = [] ∧
    detectSectionOffset F1 page1 ("maklumat_pemohon_header").data 1 = some 30 ∧
    ("ALI").data ≠ ([] : Str) := by
  refine ⟨?_, ?_, ?_, ?_, ?_⟩ <;> with_unfolding_all decide

end Vel
